import Mathlib

/-!
Verification of the form-client logic of the NGO website repository.

The only executable source file in the repository is `js/main.js`, the
browser-side form client.  This file gives a shallow embedding of its three
form handlers (`handleContactForm`, `handleDonationForm`,
`handleNewsletterForm`), the helpers `isValidEmail` and `showAlert`, and —
modelled from the spec, since `app.py` is not part of the sources — the
backend donate handler of the crypto-only deployment.

Modelling conventions:
  * `FormData.get(name)` returns a string or `null`; we use `Option String`.
  * JavaScript truthiness of such a value: `null` and `""` are falsy.
  * The comparison `donationAmount <= 0` in the donate handler coerces the
    string through JavaScript `ToNumber`.  We embed the `StringNumericLiteral`
    grammar exactly (whitespace trimming, signed decimal literals with
    fraction and exponent, `Infinity`, unsigned hex/octal/binary literals,
    `NaN` otherwise), representing finite values exactly as `num * 10 ^ exp`
    with integer `num`, `exp`.  Exact arithmetic diverges from IEEE doubles
    only on exponent overflow/underflow beyond ±~308, irrelevant here.
  * The network is an oracle: a handler is a pure function of the form fields
    and of the outcome of the `fetch`, returning a record of its observable
    effects (alert shown, request body sent, final submit-button state,
    scheduled redirect, form reset).
-/

set_option autoImplicit false

namespace NgoSite

/-- JavaScript whitespace characters recognised by `ToNumber` trimming and by
the `\s` character class (common subset: space, tab, LF, VT, FF, CR, NBSP). -/
def jsWhitespace (c : Char) : Bool :=
  c = ' ' || c = '\t' || c = '\n' || c = '\x0b' || c = '\x0c' || c = '\r' || c = '\xa0'

/-- Trim JavaScript whitespace from both ends of a character list. -/
def trimJsWs (l : List Char) : List Char :=
  ((l.dropWhile jsWhitespace).reverse.dropWhile jsWhitespace).reverse

def isDecDigit (c : Char) : Bool := '0' ≤ c && c ≤ '9'

def isHexDigit (c : Char) : Bool :=
  isDecDigit c || ('a' ≤ c && c ≤ 'f') || ('A' ≤ c && c ≤ 'F')

def isOctDigit (c : Char) : Bool := '0' ≤ c && c ≤ '7'

def isBinDigit (c : Char) : Bool := c = '0' || c = '1'

/-- Numeric value of one digit character (decimal or hexadecimal). -/
def digitVal (c : Char) : Nat :=
  if isDecDigit c then c.toNat - '0'.toNat
  else if 'a' ≤ c && c ≤ 'f' then c.toNat - 'a'.toNat + 10
  else if 'A' ≤ c && c ≤ 'F' then c.toNat - 'A'.toNat + 10
  else 0

/-- Read a digit string in the given base (most significant first). -/
def digitsToNat (base : Nat) (l : List Char) : Nat :=
  l.foldl (fun n c => n * base + digitVal c) 0

/-- A finite JavaScript number kept exactly: the value `num * 10 ^ exp10`. -/
structure DecNum where
  num : Int
  exp10 : Int
  deriving DecidableEq, Repr

/-- Rational value denoted by a `DecNum`. -/
def DecNum.toRat (d : DecNum) : ℚ :=
  if 0 ≤ d.exp10 then (d.num : ℚ) * (10 : ℚ) ^ d.exp10.toNat
  else (d.num : ℚ) / (10 : ℚ) ^ (-d.exp10).toNat

/-- Result of JavaScript `ToNumber` on a string. -/
inductive JsNumber where
  | nan
  | finite (d : DecNum)
  | posInf
  | negInf
  deriving DecidableEq, Repr

/-- Whether `x <= 0` holds in JavaScript (`NaN` compares false). -/
def JsNumber.leZero : JsNumber → Bool
  | .nan => false
  | .finite d => d.num ≤ 0
  | .posInf => false
  | .negInf => true

/-- Whether `x > 0` holds in JavaScript (`NaN` compares false). -/
def JsNumber.gtZero : JsNumber → Bool
  | .nan => false
  | .finite d => 0 < d.num
  | .posInf => true
  | .negInf => false

/-- Parse the exponent part after `e`/`E`: optional sign, then digits. -/
def parseExpPart (l : List Char) : Option Int :=
  let core : Int → List Char → Option Int := fun sg ds =>
    if ds ≠ [] && ds.all isDecDigit then some (sg * (digitsToNat 10 ds : Int)) else none
  match l with
  | '+' :: r => core 1 r
  | '-' :: r => core (-1) r
  | r => core 1 r

/-- Parse an unsigned decimal mantissa `digits [. digits]` / `. digits`,
returning the digit value and the number of fraction digits. -/
def parseMantissa (l : List Char) : Option (Nat × Nat) :=
  let intPart := l.takeWhile isDecDigit
  let rest := l.dropWhile isDecDigit
  match rest with
  | [] => if intPart = [] then none else some (digitsToNat 10 intPart, 0)
  | '.' :: frac =>
      if frac.all isDecDigit && (intPart ≠ [] || frac ≠ []) then
        some (digitsToNat 10 (intPart ++ frac), frac.length)
      else none
  | _ => none

/-- Parse an unsigned decimal literal with optional exponent, as the exact
value `num * 10 ^ exp10` with `num ≥ 0`. -/
def parseUnsignedDec (l : List Char) : Option DecNum :=
  let isExpChar : Char → Bool := fun c => c = 'e' || c = 'E'
  let mant := l.takeWhile (fun c => !isExpChar c)
  let rest := l.dropWhile (fun c => !isExpChar c)
  let expVal : Option Int :=
    match rest with
    | [] => some 0
    | _ :: ec => parseExpPart ec
  match parseMantissa mant, expVal with
  | some (m, fl), some e => some ⟨(m : Int), e - (fl : Int)⟩
  | _, _ => none

/-- Unsigned non-decimal integer literals `0x…`, `0o…`, `0b…` (`none` when the
input is not of that shape at all). -/
def parseNonDecimal (l : List Char) : Option JsNumber :=
  match l with
  | '0' :: c :: rest =>
      if c = 'x' || c = 'X' then
        some (if rest ≠ [] && rest.all isHexDigit then
          .finite ⟨(digitsToNat 16 rest : Int), 0⟩ else .nan)
      else if c = 'o' || c = 'O' then
        some (if rest ≠ [] && rest.all isOctDigit then
          .finite ⟨(digitsToNat 8 rest : Int), 0⟩ else .nan)
      else if c = 'b' || c = 'B' then
        some (if rest ≠ [] && rest.all isBinDigit then
          .finite ⟨(digitsToNat 2 rest : Int), 0⟩ else .nan)
      else none
  | _ => none

/-- Signed decimal literal or `Infinity`, after trimming. -/
def parseSignedDec (l : List Char) : JsNumber :=
  let sg : Int := match l with | '-' :: _ => -1 | _ => 1
  let body : List Char := match l with | '+' :: r => r | '-' :: r => r | r => r
  if body = "Infinity".toList then (if sg = 1 then .posInf else .negInf)
  else
    match parseUnsignedDec body with
    | some d => .finite ⟨sg * d.num, d.exp10⟩
    | none => .nan

/-- JavaScript `ToNumber` on a string: the `StringNumericLiteral` grammar. -/
def jsStringToNumber (s : String) : JsNumber :=
  let l := trimJsWs s.toList
  if l = [] then .finite ⟨0, 0⟩
  else
    match parseNonDecimal l with
    | some n => n
    | none => parseSignedDec l

/-- `ToNumber` applied to a form-field value: `ToNumber(null) = 0`. -/
def jsFieldToNumber (o : Option String) : JsNumber :=
  match o with
  | none => .finite ⟨0, 0⟩
  | some s => jsStringToNumber s

/-- JavaScript truthiness of a `FormData.get` result: `null` and `""` falsy. -/
def truthy (o : Option String) : Bool :=
  match o with
  | none => false
  | some s => s ≠ ""

/-- Characters admitted by the `[^\s@]` class of the email regex. -/
def emailChar (c : Char) : Bool := !jsWhitespace c && c ≠ '@'

/-- The regex test `/^[^\s@]+@[^\s@]+\.[^\s@]+$/.test(email)` of
`isValidEmail` in `js/main.js`: the string must decompose as
`local ++ "@" ++ d1 ++ "." ++ d2` with `local`, `d1`, `d2` nonempty and free
of whitespace and `@`.  Equivalently: everything up to the first `@` is a
nonempty run of `emailChar`s, an `@` follows, the remainder consists of
`emailChar`s and contains a `.` that is neither its first nor its last
character. -/
def isValidEmail (s : String) : Bool :=
  match s.toList.dropWhile (fun c => c ≠ '@') with
  | '@' :: domain =>
      !(s.toList.takeWhile (fun c => c ≠ '@')).isEmpty &&
        (s.toList.takeWhile (fun c => c ≠ '@')).all emailChar &&
        domain.all emailChar && (domain.drop 1).dropLast.contains '.'
  | _ => false

/-- `isValidEmail` applied to a field value; `isValidEmail(null)` tests the
coerced string `"null"`, which the regex rejects, so `none ↦ false`. -/
def isValidEmailField (o : Option String) : Bool :=
  match o with
  | none => false
  | some s => isValidEmail s

/-! ## Form fields as read by the handlers (`FormData.get` results) -/

/-- Fields read by `handleContactForm`. -/
structure ContactForm where
  name : Option String
  email : Option String
  phone : Option String
  subject : Option String
  message : Option String
  newsletter : Option String
  deriving DecidableEq, Repr

/-- Fields read by `handleDonationForm`. -/
structure DonateForm where
  amount : Option String
  customAmount : Option String
  donationType : Option String
  paymentMethod : Option String
  donorName : Option String
  donorEmail : Option String
  donorPhone : Option String
  projectSelection : Option String
  donorMessage : Option String
  anonymous : Option String
  newsletter : Option String
  deriving DecidableEq, Repr

/-- Fields read by `handleNewsletterForm`. -/
structure NewsletterForm where
  email : Option String
  deriving DecidableEq, Repr

/-! ## Request bodies (the `data` objects built by the handlers) -/

/-- The `data` object of `handleContactForm`; `newsletter` is the boolean
`formData.get('newsletter') === '1'`. -/
structure ContactData where
  name : Option String
  email : Option String
  phone : Option String
  subject : Option String
  message : Option String
  newsletter : Bool
  deriving DecidableEq, Repr

/-- Build the contact request body from the form fields (main.js lines
86–93). -/
def mkContactData (f : ContactForm) : ContactData :=
  ⟨f.name, f.email, f.phone, f.subject, f.message, f.newsletter == some "1"⟩

/-- The `data` object of `handleDonationForm`; `anonymous` and `newsletter`
are the booleans `formData.get(…) === '1'`. -/
structure DonateData where
  amount : Option String
  customAmount : Option String
  donationType : Option String
  paymentMethod : Option String
  donorName : Option String
  donorEmail : Option String
  donorPhone : Option String
  projectSelection : Option String
  donorMessage : Option String
  anonymous : Bool
  newsletter : Bool
  deriving DecidableEq, Repr

/-- Build the donate request body from the form fields (main.js lines
143–155). -/
def mkDonateData (f : DonateForm) : DonateData :=
  ⟨f.amount, f.customAmount, f.donationType, f.paymentMethod, f.donorName,
    f.donorEmail, f.donorPhone, f.projectSelection, f.donorMessage,
    f.anonymous == some "1", f.newsletter == some "1"⟩

/-- The `data` object of `handleNewsletterForm`. -/
structure NewsletterData where
  email : Option String
  deriving DecidableEq, Repr

/-- The ternary `data.amount === 'custom' ? data.customAmount : data.amount`
(main.js line 157). -/
def resolveDonationAmount (amount customAmount : Option String) : Option String :=
  if amount = some "custom" then customAmount else amount

/-! ## Network oracle and handler effects -/

/-- Parsed JSON response as the handlers read it: `result.success` (truthiness
of the payload flag), `result.message`, and — read only by the donate
handler — `result.amount` and `result.paymentMethod`. -/
structure ApiResult where
  success : Bool
  message : String
  amount : String
  paymentMethod : String
  deriving DecidableEq, Repr

/-- Outcome of `await fetch(…)` followed by `await response.json()`:
either both complete with a parsed payload, or the chain throws. -/
inductive NetOutcome where
  | netError
  | response (r : ApiResult)
  deriving DecidableEq, Repr

/-- Observable effects of one run of the contact handler: the alert shown
(message, kind), the request body sent (if any), whether the submit button is
left disabled, and whether the form was reset. -/
structure ContactEffects where
  alert : Option (String × String)
  request : Option ContactData
  buttonDisabled : Bool
  formReset : Bool
  deriving DecidableEq, Repr

/-- Observable effects of one run of the donate handler; `redirect` is the
scheduled navigation (delay in milliseconds, target URL), if any. -/
structure DonateEffects where
  alert : Option (String × String)
  request : Option DonateData
  buttonDisabled : Bool
  redirect : Option (Nat × String)
  deriving DecidableEq, Repr

/-- Observable effects of one run of the newsletter handler. -/
structure NewsletterEffects where
  alert : Option (String × String)
  request : Option NewsletterData
  buttonDisabled : Bool
  formReset : Bool
  deriving DecidableEq, Repr

/-! ## The three handlers (main.js lines 80–259) -/

/-- `handleContactForm` (main.js lines 80–135) as a pure function of the form
fields and the network outcome. -/
def handleContactForm (f : ContactForm) (net : NetOutcome) : ContactEffects :=
  let data := mkContactData f
  if !truthy data.name || !truthy data.email || !truthy data.message then
    ⟨some ("Please fill in all required fields.", "error"), none, false, false⟩
  else if !isValidEmailField data.email then
    ⟨some ("Please enter a valid email address.", "error"), none, false, false⟩
  else
    match net with
    | .netError =>
        ⟨some ("Network error. Please check your connection and try again.", "error"),
          some data, false, false⟩
    | .response r =>
        if r.success then ⟨some (r.message, "success"), some data, false, true⟩
        else ⟨some (r.message, "error"), some data, false, false⟩

/-- `handleDonationForm` (main.js lines 138–213) as a pure function of the
form fields and the network outcome.  The submit button is re-enabled on a
failure payload and on a network error, but not after a success payload. -/
def handleDonationForm (f : DonateForm) (net : NetOutcome) : DonateEffects :=
  let data := mkDonateData f
  let donationAmount := resolveDonationAmount data.amount data.customAmount
  if !truthy donationAmount || (jsFieldToNumber donationAmount).leZero then
    ⟨some ("Please enter a valid donation amount.", "error"), none, false, none⟩
  else if !truthy data.paymentMethod then
    ⟨some ("Please select a payment method.", "error"), none, false, none⟩
  else if !truthy data.donorName || !truthy data.donorEmail then
    ⟨some ("Please fill in your name and email address.", "error"), none, false, none⟩
  else if !isValidEmailField data.donorEmail then
    ⟨some ("Please enter a valid email address.", "error"), none, false, none⟩
  else
    match net with
    | .netError =>
        ⟨some ("Network error. Please check your connection and try again.", "error"),
          some data, false, none⟩
    | .response r =>
        if r.success then
          ⟨some (r.message, "success"), some data, true,
            some (2000, "thank-you.html?amount=" ++ r.amount ++ "&method=" ++ r.paymentMethod)⟩
        else ⟨some (r.message, "error"), some data, false, none⟩

/-- `handleNewsletterForm` (main.js lines 216–259) as a pure function of the
form fields and the network outcome. -/
def handleNewsletterForm (f : NewsletterForm) (net : NetOutcome) : NewsletterEffects :=
  let data : NewsletterData := ⟨f.email⟩
  if !truthy data.email || !isValidEmailField data.email then
    ⟨some ("Please enter a valid email address.", "error"), none, false, false⟩
  else
    match net with
    | .netError =>
        ⟨some ("Network error. Please check your connection and try again.", "error"),
          some data, false, false⟩
    | .response r =>
        if r.success then ⟨some (r.message, "success"), some data, false, true⟩
        else ⟨some (r.message, "error"), some data, false, false⟩

/-! ## `showAlert` (main.js lines 267–290) -/

/-- A DOM element as far as the alert subsystem is concerned: either an alert
banner (with an identifier standing for node identity) or any other element. -/
inductive DomElem where
  | alertElem (id : Nat) (message : String) (kind : String)
  | other (id : Nat)
  deriving DecidableEq, Repr

/-- Whether an element matches the `.alert` selector. -/
def DomElem.isAlert : DomElem → Bool
  | .alertElem _ _ _ => true
  | .other _ => false

def DomElem.elemId : DomElem → Nat
  | .alertElem i _ _ => i
  | .other i => i

/-- `showAlert(message, type)`: remove every existing `.alert` element, then
append one freshly created alert to the body; an auto-removal of that alert is
scheduled 5000 ms later.  Returns the new child list and the scheduled
(element id, delay). -/
def showAlert (dom : List DomElem) (fresh : Nat) (message kind : String) :
    List DomElem × (Nat × Nat) :=
  ((dom.filter fun e => !e.isAlert) ++ [.alertElem fresh message kind], (fresh, 5000))

/-- The body of the scheduled `setTimeout` callback: `alert.remove()` guarded
by `alert.parentElement` — remove the node if it is still attached.  On our
list model this deletes every element with the alert's identity (a no-op when
it is no longer attached). -/
def alertAutoRemove (dom : List DomElem) (id : Nat) : List DomElem :=
  dom.filter fun e => e.elemId ≠ id

/-! ## Backend donate endpoint (crypto-only deployment)

`app.py` is not among the sources; only `CRYPTO_SETUP.md` documents it.  The
following is modelled from the spec. -/

/-- Modelled from the spec: the accepted payment-method set of the crypto-only
deployment — "crypto-only variants enforce payment method ∈ {bitcoin,
ethereum} and fail all others". -/
def acceptedPaymentMethods : List String := ["bitcoin", "ethereum"]

/-- Modelled from the spec: a persisted Donation row (the fields the spec
names for the Donation entity, §3). -/
structure DonationRow where
  amount : String
  paymentMethod : String
  donorName : String
  donorEmail : String
  anonymous : Bool
  deriving DecidableEq, Repr

/-- Modelled from the spec: a `POST /api/donate` request body. -/
structure BackendDonateRequest where
  amount : String
  paymentMethod : String
  donorName : String
  donorEmail : String
  anonymous : Bool
  deriving DecidableEq, Repr

/-- Modelled from the spec: the JSON response of `POST /api/donate`. -/
structure BackendDonateResponse where
  success : Bool
  message : String
  deriving DecidableEq, Repr

/-- Modelled from the spec: the backend donate handler of the crypto-only
deployment (`app.py`, absent from src/).  Spec §4.2: "requires a positive
amount, a payment method drawn from the accepted set, donor name, donor email
(valid format).  Rejects non-accepted payment methods explicitly"; on success
it persists a Donation row, on any validation failure it returns failure and
writes nothing. -/
def backendDonate (req : BackendDonateRequest) (db : List DonationRow) :
    BackendDonateResponse × List DonationRow :=
  if !(jsStringToNumber req.amount).gtZero then
    (⟨false, "Please provide a valid donation amount."⟩, db)
  else if !acceptedPaymentMethods.contains req.paymentMethod then
    (⟨false, "Only cryptocurrency payments are accepted."⟩, db)
  else if req.donorName = "" || req.donorEmail = "" then
    (⟨false, "Please provide your name and email."⟩, db)
  else if !isValidEmail req.donorEmail then
    (⟨false, "Please provide a valid email address."⟩, db)
  else
    (⟨true, "Thank you for your donation!"⟩,
      db ++ [⟨req.amount, req.paymentMethod, req.donorName, req.donorEmail, req.anonymous⟩])

end NgoSite

namespace NgoSite

/-! ## Shared sample inputs and helper lemmas -/

/-- A donation form that passes every client-side check. -/
def sampleDonateForm : DonateForm :=
  ⟨some "100", none, none, some "bitcoin", some "A", some "a@b.c",
    none, none, none, none, none⟩

/-- A contact form that passes every client-side check. -/
def sampleContactForm : ContactForm :=
  ⟨some "Jane", some "jane@x.com", none, none, some "hi", none⟩

/-- A newsletter form that passes the client-side check. -/
def sampleNewsletterForm : NewsletterForm := ⟨some "jane@x.com"⟩

/-- If `dropWhile p` produces a cons, its head fails the predicate. -/
theorem dropWhile_head_false {α : Type} {p : α → Bool} :
    ∀ {l : List α} {c : α} {rest : List α}, l.dropWhile p = c :: rest → p c = false := by
  intro l
  induction l with
  | nil => intro c rest hb; simp at hb
  | cons x xs ih =>
    intro c rest hb
    rw [List.dropWhile_cons] at hb
    by_cases hp : p x = true
    · rw [if_pos hp] at hb
      exact ih hb
    · rw [if_neg hp] at hb
      cases hb
      simpa using hp

/-- Structure of any string accepted by the email regex: exactly one `@`,
a nonempty run before it, and a `.` somewhere after it. -/
theorem isValidEmail_structure (s : String) (h : isValidEmail s = true) :
    s.toList.count '@' = 1 ∧
    s.toList.takeWhile (fun c => c ≠ '@') ≠ [] ∧
    '.' ∈ (s.toList.dropWhile (fun c => c ≠ '@')).drop 1 := by
  unfold isValidEmail at h
  cases hb : s.toList.dropWhile (fun c => decide (c ≠ '@')) with
  | nil => rw [hb] at h; simp at h
  | cons c domain =>
    have hc : c = '@' := by
      have := dropWhile_head_false hb
      simpa using this
    subst hc
    rw [hb] at h
    simp only [Bool.and_eq_true, Bool.not_eq_true', List.isEmpty_eq_false] at h
    obtain ⟨⟨⟨hne, hloc⟩, hdom⟩, hdot⟩ := h
    have hsplit : s.toList = s.toList.takeWhile (fun c => decide (c ≠ '@')) ++ '@' :: domain := by
      conv_lhs => rw [← List.takeWhile_append_dropWhile (p := fun c => decide (c ≠ '@'))
        (l := s.toList)]
      rw [hb]
    have h1 : (s.toList.takeWhile (fun c => decide (c ≠ '@'))).count '@' = 0 := by
      rw [List.count_eq_zero]
      intro hmem
      have := List.mem_takeWhile_imp hmem
      simp at this
    have h2 : domain.count '@' = 0 := by
      rw [List.count_eq_zero]
      intro hmem
      have := List.all_eq_true.mp hdom _ hmem
      simp [emailChar] at this
    refine ⟨?_, hne, ?_⟩
    · rw [hsplit, List.count_append, h1, List.count_cons_self, h2]
    · simp only [List.drop_succ_cons, List.drop_zero]
      have hmem : '.' ∈ (domain.drop 1).dropLast := by
        simpa using hdot
      exact List.drop_subset 1 domain (List.dropLast_subset _ hmem)

/-- If the donate handler issued a request, all four validation checks passed. -/
theorem donateChecks_of_isSome (f : DonateForm) (net : NetOutcome)
    (h : (handleDonationForm f net).request.isSome = true) :
    (!truthy (resolveDonationAmount f.amount f.customAmount)
        || (jsFieldToNumber (resolveDonationAmount f.amount f.customAmount)).leZero) = false ∧
    truthy f.paymentMethod = true ∧
    (!truthy f.donorName || !truthy f.donorEmail) = false ∧
    isValidEmailField f.donorEmail = true := by
  cases c1 : (!truthy (resolveDonationAmount f.amount f.customAmount)
      || (jsFieldToNumber (resolveDonationAmount f.amount f.customAmount)).leZero) <;>
    cases c2 : truthy f.paymentMethod <;>
    cases c3 : (!truthy f.donorName || !truthy f.donorEmail) <;>
    cases c4 : isValidEmailField f.donorEmail <;>
    simp_all [handleDonationForm, mkDonateData]

/-- The donate handler on a run whose validation checks all passed. -/
theorem handleDonationForm_eq_of_checks (f : DonateForm) (net : NetOutcome)
    (c1 : (!truthy (resolveDonationAmount f.amount f.customAmount)
        || (jsFieldToNumber (resolveDonationAmount f.amount f.customAmount)).leZero) = false)
    (c2 : truthy f.paymentMethod = true)
    (c3 : (!truthy f.donorName || !truthy f.donorEmail) = false)
    (c4 : isValidEmailField f.donorEmail = true) :
    handleDonationForm f net =
      match net with
      | .netError =>
          ⟨some ("Network error. Please check your connection and try again.", "error"),
            some (mkDonateData f), false, none⟩
      | .response r =>
          if r.success then
            ⟨some (r.message, "success"), some (mkDonateData f), true,
              some (2000, "thank-you.html?amount=" ++ r.amount ++ "&method=" ++ r.paymentMethod)⟩
          else ⟨some (r.message, "error"), some (mkDonateData f), false, none⟩ := by
  simp [handleDonationForm, mkDonateData, c1, c2, c3, c4]

end NgoSite

namespace NgoSite

/-! ## Claims -/

/-- C1: For every payment method not in the accepted set (crypto-only
deployment: {"bitcoin", "ethereum"}), a `POST /api/donate` request returns a
failure response and no Donation row is created in the Persistence Store.
(Backend modelled from the spec; `app.py` is not among the sources.) -/
theorem claimC1_nonacceptedMethodRejected (req : BackendDonateRequest)
    (db : List DonationRow) (h : req.paymentMethod ∉ acceptedPaymentMethods) :
    (backendDonate req db).1.success = false ∧ (backendDonate req db).2 = db := by
  have hc : acceptedPaymentMethods.contains req.paymentMethod = false := by
    simpa using h
  unfold backendDonate
  rw [hc]
  split
  · exact ⟨rfl, rfl⟩
  · simp

/-- C1 witness: a concrete `"visa"` donation against an empty store fails and
writes nothing. -/
theorem claimC1_nonacceptedMethodRejected_sample :
    (backendDonate ⟨"100", "visa", "A", "a@b.c", false⟩ []).1.success = false ∧
    (backendDonate ⟨"100", "visa", "A", "a@b.c", false⟩ []).2 = [] :=
  claimC1_nonacceptedMethodRejected ⟨"100", "visa", "A", "a@b.c", false⟩ [] (by decide)

/-- C2 counterexample: with `amount = "custom"` and `customAmount = "abc"`
(and all other checks satisfied), the resolved amount `"abc"` is nonempty and
is not greater than zero (`Number("abc")` is `NaN`, which compares false), yet
the handler does not abort: it sends the request and, on a success payload,
shows a success alert — refuting the claim that every such submission shows an
error and sends nothing. -/
theorem claimC2_counterexample :
    resolveDonationAmount (some "custom") (some "abc") = some "abc" ∧
    (jsStringToNumber "abc").gtZero = false ∧
    (handleDonationForm
        ⟨some "custom", some "abc", none, some "bitcoin", some "A", some "a@b.c",
          none, none, none, none, none⟩
        (.response ⟨true, "Thank you!", "abc", "bitcoin"⟩)).request.isSome = true ∧
    (handleDonationForm
        ⟨some "custom", some "abc", none, some "bitcoin", some "A", some "a@b.c",
          none, none, none, none, none⟩
        (.response ⟨true, "Thank you!", "abc", "bitcoin"⟩)).alert
      = some ("Thank you!", "success") := by
  refine ⟨rfl, by decide, by decide, by decide⟩

/-- C2 (amended): for every submission whose resolved amount (customAmount
when amount is "custom", otherwise amount) is absent/empty or compares `<= 0`
under JavaScript numeric coercion, the handler shows the amount error
notification and aborts without sending any request.  (Strings that coerce to
`NaN`, such as `"abc"`, compare false and are not rejected by this check.) -/
theorem claimC2_amendedAmountCheck (f : DonateForm) (net : NetOutcome)
    (h : truthy (resolveDonationAmount f.amount f.customAmount) = false ∨
        (jsFieldToNumber (resolveDonationAmount f.amount f.customAmount)).leZero = true) :
    (handleDonationForm f net).alert = some ("Please enter a valid donation amount.", "error") ∧
    (handleDonationForm f net).request = none := by
  rcases h with h | h <;>
    simp [handleDonationForm, mkDonateData, h]

/-- C2 witness: amount `"0"` is rejected with the error alert and no request. -/
theorem claimC2_amendedAmountCheck_sample :
    (handleDonationForm ⟨some "0", none, none, none, none, none, none, none, none, none, none⟩
        .netError).alert = some ("Please enter a valid donation amount.", "error") ∧
    (handleDonationForm ⟨some "0", none, none, none, none, none, none, none, none, none, none⟩
        .netError).request = none :=
  claimC2_amendedAmountCheck
    ⟨some "0", none, none, none, none, none, none, none, none, none, none⟩
    .netError (Or.inr (by decide))

/-- C3: `isValidEmail` returns true only if the string contains exactly one
`@`, a non-empty local part before it, and a domain part after it that
contains a dot; it accepts `"a@b.c"` and rejects `"a@b"`, `"@b.c"`,
`"a@b@c.d"`. -/
theorem claimC3_emailPatternOnlyIf :
    (∀ s : String, isValidEmail s = true →
        s.toList.count '@' = 1 ∧
        s.toList.takeWhile (fun c => c ≠ '@') ≠ [] ∧
        '.' ∈ (s.toList.dropWhile (fun c => c ≠ '@')).drop 1) ∧
    isValidEmail "a@b.c" = true ∧
    isValidEmail "a@b" = false ∧
    isValidEmail "@b.c" = false ∧
    isValidEmail "a@b@c.d" = false :=
  ⟨fun s h => isValidEmail_structure s h, by decide, by decide, by decide, by decide⟩

/-- C3 witness: the structural consequence evaluated at `"a@b.c"`. -/
theorem claimC3_emailPatternOnlyIf_sample :
    "a@b.c".toList.count '@' = 1 ∧
    "a@b.c".toList.takeWhile (fun c => c ≠ '@') ≠ [] ∧
    '.' ∈ ("a@b.c".toList.dropWhile (fun c => c ≠ '@')).drop 1 :=
  claimC3_emailPatternOnlyIf.1 "a@b.c" (by decide)

/-- C4: donation amount resolution is the function "customAmount when amount
is the sentinel `"custom"`, otherwise amount"; `amount="custom"`,
`customAmount="25"` resolves to `"25"` (numeric value 25), and `amount="50"`
with any customAmount resolves to `"50"` (numeric value 50). -/
theorem claimC4_amountResolution :
    (∀ a c : Option String, resolveDonationAmount a c = if a = some "custom" then c else a) ∧
    resolveDonationAmount (some "custom") (some "25") = some "25" ∧
    jsStringToNumber "25" = .finite ⟨25, 0⟩ ∧
    DecNum.toRat ⟨25, 0⟩ = 25 ∧
    (∀ c : Option String, resolveDonationAmount (some "50") c = some "50") ∧
    jsStringToNumber "50" = .finite ⟨50, 0⟩ ∧
    DecNum.toRat ⟨50, 0⟩ = 50 := by
  refine ⟨fun a c => rfl, rfl, by decide, ?_, fun c => rfl, by decide, ?_⟩ <;>
    norm_num [DecNum.toRat]

/-- C5: for each of the three form handlers, whenever a required-field or
email-format check fails, an error notification is displayed and the handler
returns before any network request is issued. -/
theorem claimC5_validationAborts :
    (∀ (f : ContactForm) (net : NetOutcome),
        ¬(truthy f.name = true ∧ truthy f.email = true ∧ truthy f.message = true ∧
            isValidEmailField f.email = true) →
        ((handleContactForm f net).alert.map Prod.snd = some "error") ∧
        (handleContactForm f net).request = none) ∧
    (∀ (f : DonateForm) (net : NetOutcome),
        ¬(truthy f.paymentMethod = true ∧ truthy f.donorName = true ∧
            truthy f.donorEmail = true ∧ isValidEmailField f.donorEmail = true) →
        ((handleDonationForm f net).alert.map Prod.snd = some "error") ∧
        (handleDonationForm f net).request = none) ∧
    (∀ (f : NewsletterForm) (net : NetOutcome),
        ¬(truthy f.email = true ∧ isValidEmailField f.email = true) →
        ((handleNewsletterForm f net).alert.map Prod.snd = some "error") ∧
        (handleNewsletterForm f net).request = none) := by
  refine ⟨?_, ?_, ?_⟩
  · intro f net h
    cases hn : truthy f.name <;> cases he : truthy f.email <;>
      cases hm : truthy f.message <;> cases hv : isValidEmailField f.email <;>
      simp_all [handleContactForm, mkContactData]
  · intro f net h
    by_cases hc1 : (!truthy (resolveDonationAmount f.amount f.customAmount)
        || (jsFieldToNumber (resolveDonationAmount f.amount f.customAmount)).leZero) = true
    · simp [handleDonationForm, mkDonateData, hc1]
    · cases hp : truthy f.paymentMethod <;> cases hn : truthy f.donorName <;>
        cases he : truthy f.donorEmail <;> cases hv : isValidEmailField f.donorEmail <;>
        simp_all [handleDonationForm, mkDonateData]
  · intro f net h
    cases he : truthy f.email <;> cases hv : isValidEmailField f.email <;>
      simp_all [handleNewsletterForm]

/-- C5 witness: an all-empty contact form yields an error alert and no
request. -/
theorem claimC5_validationAborts_sample :
    ((handleContactForm ⟨none, none, none, none, none, none⟩ .netError).alert.map Prod.snd
      = some "error") ∧
    (handleContactForm ⟨none, none, none, none, none, none⟩ .netError).request = none :=
  claimC5_validationAborts.1 ⟨none, none, none, none, none, none⟩ .netError (by decide)

/-- C6: in the donate handler, if the response payload signals success, the
client shows a success notification and schedules a redirect to the thank-you
page after a fixed 2000 ms delay, carrying `result.amount` and
`result.paymentMethod` as the `amount` and `method` query parameters. -/
theorem claimC6_successRedirect (f : DonateForm) (r : ApiResult)
    (hreq : (handleDonationForm f (.response r)).request.isSome = true)
    (hs : r.success = true) :
    (handleDonationForm f (.response r)).alert = some (r.message, "success") ∧
    (handleDonationForm f (.response r)).redirect =
      some (2000, "thank-you.html?amount=" ++ r.amount ++ "&method=" ++ r.paymentMethod) := by
  obtain ⟨c1, c2, c3, c4⟩ := donateChecks_of_isSome f _ hreq
  rw [handleDonationForm_eq_of_checks f _ c1 c2 c3 c4]
  simp [hs]

/-- C6 witness: a valid donation with a concrete success payload schedules the
2-second redirect with the response fields. -/
theorem claimC6_successRedirect_sample :
    (handleDonationForm sampleDonateForm
        (.response ⟨true, "Thank you!", "100", "bitcoin"⟩)).alert
      = some ("Thank you!", "success") ∧
    (handleDonationForm sampleDonateForm
        (.response ⟨true, "Thank you!", "100", "bitcoin"⟩)).redirect
      = some (2000, "thank-you.html?amount=" ++ "100" ++ "&method=" ++ "bitcoin") :=
  claimC6_successRedirect sampleDonateForm ⟨true, "Thank you!", "100", "bitcoin"⟩
    (by decide) rfl

/-- C7: for each of the three form handlers, if the network request never
completes (the fetch/JSON chain throws), the handler shows the generic
connectivity error message and re-enables the submit control. -/
theorem claimC7_networkErrorRecovery :
    (∀ f : ContactForm, (handleContactForm f .netError).request.isSome = true →
        (handleContactForm f .netError).alert =
          some ("Network error. Please check your connection and try again.", "error") ∧
        (handleContactForm f .netError).buttonDisabled = false) ∧
    (∀ f : DonateForm, (handleDonationForm f .netError).request.isSome = true →
        (handleDonationForm f .netError).alert =
          some ("Network error. Please check your connection and try again.", "error") ∧
        (handleDonationForm f .netError).buttonDisabled = false) ∧
    (∀ f : NewsletterForm, (handleNewsletterForm f .netError).request.isSome = true →
        (handleNewsletterForm f .netError).alert =
          some ("Network error. Please check your connection and try again.", "error") ∧
        (handleNewsletterForm f .netError).buttonDisabled = false) := by
  refine ⟨?_, ?_, ?_⟩
  · intro f hreq
    cases c1 : truthy f.name <;> cases c2 : truthy f.email <;>
      cases c3 : truthy f.message <;> cases c4 : isValidEmailField f.email <;>
      simp_all [handleContactForm, mkContactData]
  · intro f hreq
    obtain ⟨c1, c2, c3, c4⟩ := donateChecks_of_isSome f _ hreq
    rw [handleDonationForm_eq_of_checks f _ c1 c2 c3 c4]
    exact ⟨rfl, rfl⟩
  · intro f hreq
    cases c1 : truthy f.email <;> cases c2 : isValidEmailField f.email <;>
      simp_all [handleNewsletterForm]

/-- C7 witness: a valid newsletter form under a network error shows the
connectivity alert and leaves the button enabled. -/
theorem claimC7_networkErrorRecovery_sample :
    (handleNewsletterForm sampleNewsletterForm .netError).alert =
      some ("Network error. Please check your connection and try again.", "error") ∧
    (handleNewsletterForm sampleNewsletterForm .netError).buttonDisabled = false :=
  claimC7_networkErrorRecovery.2.2 sampleNewsletterForm (by decide)

/-- C8: `showAlert` removes all existing alert elements before appending the
new one (so at most one alert exists afterwards), leaves non-alert elements
untouched, and schedules an auto-removal of the new alert 5000 ms later; the
scheduled callback removes the alert if still attached (deleting every element
with its identity is a no-op when it is detached). -/
theorem claimC8_showAlertInvariant :
    (∀ (dom : List DomElem) (fresh : Nat) (message kind : String),
        (showAlert dom fresh message kind).1.filter DomElem.isAlert =
          [DomElem.alertElem fresh message kind] ∧
        ((showAlert dom fresh message kind).1.filter fun e => !e.isAlert) =
          (dom.filter fun e => !e.isAlert) ∧
        (showAlert dom fresh message kind).2 = (fresh, 5000)) ∧
    (∀ (dom : List DomElem) (id : Nat),
        (alertAutoRemove dom id).filter (fun e => e.elemId = id) = []) := by
  constructor
  · intro dom fresh message kind
    refine ⟨?_, ?_, rfl⟩
    · simp [showAlert, DomElem.isAlert, List.filter_append, List.filter_filter]
    · simp [showAlert, DomElem.isAlert, List.filter_append, List.filter_filter]
  · intro dom id
    induction dom with
    | nil => rfl
    | cons e rest ih =>
      by_cases he : e.elemId = id <;> simp_all [alertAutoRemove, List.filter_cons, he]

/-- C9: after a successful donation response the submit button is left
disabled; it is re-enabled on a failure payload or a network error; the
contact and newsletter handlers leave the submit button enabled in every
outcome (their `finally` block re-enables it). -/
theorem claimC9_submitButtonState :
    (∀ (f : DonateForm) (r : ApiResult),
        (handleDonationForm f (.response r)).request.isSome = true → r.success = true →
        (handleDonationForm f (.response r)).buttonDisabled = true) ∧
    (∀ (f : DonateForm) (r : ApiResult), r.success = false →
        (handleDonationForm f (.response r)).buttonDisabled = false) ∧
    (∀ f : DonateForm, (handleDonationForm f .netError).buttonDisabled = false) ∧
    (∀ (f : ContactForm) (net : NetOutcome), (handleContactForm f net).buttonDisabled = false) ∧
    (∀ (f : NewsletterForm) (net : NetOutcome),
        (handleNewsletterForm f net).buttonDisabled = false) := by
  refine ⟨?_, ?_, ?_, ?_, ?_⟩
  · intro f r hreq hs
    obtain ⟨c1, c2, c3, c4⟩ := donateChecks_of_isSome f _ hreq
    rw [handleDonationForm_eq_of_checks f _ c1 c2 c3 c4]
    simp [hs]
  · intro f r hs
    cases c1 : (!truthy (resolveDonationAmount f.amount f.customAmount)
        || (jsFieldToNumber (resolveDonationAmount f.amount f.customAmount)).leZero) <;>
      cases c2 : truthy f.paymentMethod <;>
      cases c3 : (!truthy f.donorName || !truthy f.donorEmail) <;>
      cases c4 : isValidEmailField f.donorEmail <;>
      simp_all [handleDonationForm, mkDonateData]
  · intro f
    cases c1 : (!truthy (resolveDonationAmount f.amount f.customAmount)
        || (jsFieldToNumber (resolveDonationAmount f.amount f.customAmount)).leZero) <;>
      cases c2 : truthy f.paymentMethod <;>
      cases c3 : (!truthy f.donorName || !truthy f.donorEmail) <;>
      cases c4 : isValidEmailField f.donorEmail <;>
      simp_all [handleDonationForm, mkDonateData]
  · intro f net
    cases net with
    | netError =>
        cases c1 : truthy f.name <;> cases c2 : truthy f.email <;>
          cases c3 : truthy f.message <;> cases c4 : isValidEmailField f.email <;>
          simp_all [handleContactForm, mkContactData]
    | response r =>
        cases hs : r.success <;>
          cases c1 : truthy f.name <;> cases c2 : truthy f.email <;>
          cases c3 : truthy f.message <;> cases c4 : isValidEmailField f.email <;>
          simp_all [handleContactForm, mkContactData]
  · intro f net
    cases net with
    | netError =>
        cases c1 : truthy f.email <;> cases c2 : isValidEmailField f.email <;>
          simp_all [handleNewsletterForm]
    | response r =>
        cases hs : r.success <;>
          cases c1 : truthy f.email <;> cases c2 : isValidEmailField f.email <;>
          simp_all [handleNewsletterForm]

/-- C9 witness: a valid donation with a concrete success payload leaves the
submit button disabled. -/
theorem claimC9_submitButtonState_sample :
    (handleDonationForm sampleDonateForm
        (.response ⟨true, "Thank you!", "100", "bitcoin"⟩)).buttonDisabled = true :=
  claimC9_submitButtonState.1 sampleDonateForm ⟨true, "Thank you!", "100", "bitcoin"⟩
    (by decide) rfl

/-- C10: the boolean flags in the request bodies (`newsletter` in the contact
body; `anonymous` and `newsletter` in the donate body) are true iff the
corresponding form field value is exactly the string `"1"`; `"true"`, `"on"`,
and an absent field all yield false. -/
theorem claimC10_booleanFlags :
    (∀ f : ContactForm, ((mkContactData f).newsletter = true ↔ f.newsletter = some "1")) ∧
    (∀ f : DonateForm, ((mkDonateData f).anonymous = true ↔ f.anonymous = some "1")) ∧
    (∀ f : DonateForm, ((mkDonateData f).newsletter = true ↔ f.newsletter = some "1")) ∧
    (mkContactData ⟨none, none, none, none, none, some "true"⟩).newsletter = false ∧
    (mkContactData ⟨none, none, none, none, none, some "on"⟩).newsletter = false ∧
    (mkContactData ⟨none, none, none, none, none, none⟩).newsletter = false ∧
    (mkDonateData ⟨none, none, none, none, none, none, none, none, none, some "true",
        some "on"⟩).anonymous = false ∧
    (mkDonateData ⟨none, none, none, none, none, none, none, none, none, some "true",
        some "on"⟩).newsletter = false ∧
    (mkContactData ⟨none, none, none, none, none, some "1"⟩).newsletter = true := by
  refine ⟨?_, ?_, ?_, by decide, by decide, by decide, by decide, by decide, by decide⟩ <;>
    intro f <;> simp [mkContactData, mkDonateData]

end NgoSite
